import Mathlib

/-!
Verification of the appcommons storage layer (storage/rdbms.go) and its
pagination data model. Go functions are shallowly embedded as Lean
definitions: pure string builders become Lean functions on the same data,
stateful transaction helpers become explicit state-passing functions whose
nondeterministic environment (driver outcomes) is a parameter, and Go
errors become an explicit error type with a constructor per distinguished
error value.
-/

/-- The distinguished error values of the storage package, plus a generic
constructor for arbitrary driver or client errors passed through unchanged. -/
inductive GoError where
  | errDBConnectionNeverInitialized
  | errNoRowsUpdated
  | driver (msg : String)
deriving DecidableEq, Repr

/-- The data package Cursor: an identifier plus a creation timestamp
(time.Time modelled as nanoseconds since the epoch). -/
structure Cursor where
  ID : String
  Timestamp : Nat
deriving DecidableEq, Repr

/-- The data package Pagination: a pair of optional cursors. -/
structure Pagination where
  Next : Option Cursor
  Previous : Option Cursor
deriving DecidableEq, Repr

/- PageSizeEnum is an int in Go. The enum constants are declared with iota
in the same const block as the nine orderByClause constants, and Go iota
counts every constant spec of the block, so RegularPageSize is 9. -/

def RegularPageSize : Nat := 9

def MediumPageSize : Nat := 10

def LargePageSize : Nat := 11

def ExtraLargePageSize : Nat := 12

/-- The single-quote character (ASCII 39), which the Go source embeds in
the SQL fragments around the identifier literal. -/
def squote : String := String.mk [Char.ofNat 39]

def baseOrderByClause : String := "ORDER BY createdAt desc, id desc"

def pageSizeWithOrder : String := baseOrderByClause ++ " LIMIT 25"

def mediumPageSizeWithOrder : String := baseOrderByClause ++ " LIMIT 50"

def largePageSizeWithOrder : String := baseOrderByClause ++ " LIMIT 100"

def extraLargePageSizeWithOrder : String := baseOrderByClause ++ " LIMIT 500"

def baseOrderByClauseOpposite : String := "ORDER BY createdAt asc, id asc"

def pageSizeWithOrderOpposite : String := baseOrderByClauseOpposite ++ " LIMIT 25"

def mediumPageSizeWithOrderOpposite : String := baseOrderByClauseOpposite ++ " LIMIT 50"

def largePageSizeWithOrderOpposite : String := baseOrderByClauseOpposite ++ " LIMIT 100"

def extraLargePageSizeWithOrderOpposite : String := baseOrderByClauseOpposite ++ " LIMIT 500"

/-- GetPaginationQueryFragmentWithConfigurablePageSize from storage/rdbms.go:
builds the keyset-pagination WHERE/ORDER BY/LIMIT suffix. The Go switch on
pageSize (whose default case picks the regular size) is an if-chain here
because PageSizeEnum is a plain int. -/
def GetPaginationQueryFragmentWithConfigurablePageSize
    (page : Pagination) (append : Bool) (pageSize : Nat) : String :=
  let query : String := " "
  let orderByQueryClause : String :=
    if pageSize = ExtraLargePageSize then extraLargePageSizeWithOrder
    else if pageSize = LargePageSize then largePageSizeWithOrder
    else if pageSize = MediumPageSize then mediumPageSizeWithOrder
    else if pageSize = RegularPageSize then pageSizeWithOrder
    else pageSizeWithOrder
  match page.Next, page.Previous with
  | some next, _ =>
    let query := query ++ (if append then "AND " else "WHERE ")
    let query := query ++ "id < " ++ squote ++ next.ID ++ squote ++ " "
    let query := query ++ "AND createdAt <= ? "
    query ++ orderByQueryClause
  | none, some previous =>
    let query := query ++ (if append then "AND " else "WHERE ")
    let query := query ++ "id > " ++ squote ++ previous.ID ++ squote ++ " "
    let query := query ++ "AND createdAt >= ? "
    let orderByQueryClause :=
      if pageSize = ExtraLargePageSize then extraLargePageSizeWithOrderOpposite
      else if pageSize = LargePageSize then largePageSizeWithOrderOpposite
      else if pageSize = MediumPageSize then mediumPageSizeWithOrderOpposite
      else if pageSize = RegularPageSize then pageSizeWithOrderOpposite
      else pageSizeWithOrderOpposite
    query ++ orderByQueryClause
  | none, none => query ++ orderByQueryClause

/-- GetPaginationQueryFragment: the regular-page-size specialisation. -/
def GetPaginationQueryFragment (page : Pagination) (append : Bool) : String :=
  GetPaginationQueryFragmentWithConfigurablePageSize page append RegularPageSize

/-- GetPaginationTimestampQueryArgs from storage/rdbms.go: collects the
timestamp bind arguments for the fragment. Note the two independent if
statements: when both cursors are set, both timestamps are appended. -/
def GetPaginationTimestampQueryArgs (page : Pagination) : List Nat :=
  let times : List Nat := []
  let times :=
    match page.Next with
    | some next => times ++ [next.Timestamp]
    | none => times
  let times :=
    match page.Previous with
    | some previous => times ++ [previous.Timestamp]
    | none => times
  times

/-- Number of positional placeholders in a query fragment. -/
def numPlaceholders (s : String) : Nat := s.data.count '?'

/-- The ORDER BY direction the spec expects for a given Pagination: descending
when a Next cursor is active or no cursor is set, ascending when only a
Previous cursor is active. -/
def expectedOrderDirection (page : Pagination) : String :=
  match page.Next, page.Previous with
  | some _, _ => "ORDER BY createdAt desc, id desc"
  | none, some _ => "ORDER BY createdAt asc, id asc"
  | none, none => "ORDER BY createdAt desc, id desc"

/- Transaction machinery. A transaction is the list of writes (query texts)
applied so far; committing appends them to the database rows, rolling back
discards them. The driver environment (whether Begin and Commit fail) is a
parameter, and a Go closure operating on the transaction is modelled as a
function from the pending writes to new pending writes plus an outcome that
is either a returned error value or a panic. -/

/-- Outcome of invoking a Go closure: it returns an error value (possibly
nil) or it panics. -/
inductive OpOutcome where
  | ret (e : Option GoError)
  | panics
deriving DecidableEq, Repr

/-- A transactional operation: Go func(tx *sql.Tx) error, acting on the
pending writes of the transaction. -/
def TxOp : Type := List String → List String × OpOutcome

/-- How a Go function terminates: by returning a value or by raising a panic
to its caller. -/
inductive GoReturn (α : Type) where
  | normal (a : α)
  | panicked
deriving DecidableEq, Repr

/-- Driver behaviour for one transaction: whether Begin fails and whether
Commit fails. -/
structure DBBehavior where
  beginErr : Option GoError
  commitErr : Option GoError
deriving DecidableEq, Repr

/-- Committed database contents. -/
structure DBState where
  rows : List String
deriving DecidableEq, Repr

/-- Observable actions of one ExecuteOpsInTransaction run. -/
structure TxTrace where
  opsInvoked : Bool
  commitAttempted : Bool
  committed : Bool
  rolledBack : Bool
  recoveredPanic : Bool
deriving DecidableEq, Repr

/-- ExecuteOpsInTransaction from storage/rdbms.go: Begin, run the ops, Commit
on success or Rollback on error; a deferred recover guard catches a panic in
the ops, logs it, rolls back, and lets the function return the named error
value as it stood when the panic fired (nil, since Begin had succeeded and
the assignment from txOps never completed). -/
def ExecuteOpsInTransaction (beh : DBBehavior) (txOps : TxOp) (st : DBState) :
    GoReturn (Option GoError) × DBState × TxTrace :=
  match beh.beginErr with
  | some e =>
    (.normal (some e), st,
     { opsInvoked := false, commitAttempted := false, committed := false,
       rolledBack := false, recoveredPanic := false })
  | none =>
    match txOps [] with
    | (tx, .ret none) =>
      match beh.commitErr with
      | none =>
        (.normal none, { rows := st.rows ++ tx },
         { opsInvoked := true, commitAttempted := true, committed := true,
           rolledBack := false, recoveredPanic := false })
      | some ce =>
        (.normal (some ce), st,
         { opsInvoked := true, commitAttempted := true, committed := false,
           rolledBack := false, recoveredPanic := false })
    | (_, .ret (some e)) =>
      (.normal (some e), st,
       { opsInvoked := true, commitAttempted := false, committed := false,
         rolledBack := true, recoveredPanic := false })
    | (_, .panics) =>
      (.normal none, st,
       { opsInvoked := true, commitAttempted := false, committed := false,
         rolledBack := true, recoveredPanic := true })

/-- One write statement together with the driver outcomes for it: the Exec
error, and the rows-affected count and its retrieval error. -/
structure WriteStmt where
  query : String
  execErr : Option GoError
  rowsAffected : Int
  rowsAffectedErr : Option GoError
deriving DecidableEq, Repr

/-- ExecuteQueryInTransaction from storage/rdbms.go: run prequeryOps, Exec
the statement, and when Exec reported no error require the affected row
count to equal expectedRowEffected (when that is positive), substituting
ErrNoRowsUpdated when it does not and no error came from RowsAffected. -/
def ExecuteQueryInTransaction (tx : List String) (stmt : WriteStmt)
    (expectedRowEffected : Int) : List String × Option GoError :=
  match stmt.execErr with
  | some e => (tx, some e)
  | none =>
    let tx := tx ++ [stmt.query]
    let rowsAffected := stmt.rowsAffected
    let err := stmt.rowsAffectedErr
    if expectedRowEffected > 0 ∧ rowsAffected ≠ expectedRowEffected ∧ err = none then
      (tx, some GoError.errNoRowsUpdated)
    else (tx, err)

/-- GetTxWrapperForSingleWriteQuery: wraps one statement as a transactional
op with an expected affected-row count of 1. -/
def GetTxWrapperForSingleWriteQuery (stmt : WriteStmt) : TxOp :=
  fun tx =>
    let (tx2, e) := ExecuteQueryInTransaction tx stmt 1
    (tx2, .ret e)

/-- The op loop inside ExecuteMultipleWriteOpsInTransaction: nil entries are
skipped with a warning, the first op returning a non-nil error stops the
loop, and a panic in an op aborts the loop by panicking. -/
def runOpsLoop (ops : List (Option TxOp)) (tx : List String) :
    List String × OpOutcome :=
  match ops with
  | [] => (tx, .ret none)
  | none :: rest => runOpsLoop rest tx
  | some op :: rest =>
    match op tx with
    | (tx2, .ret none) => runOpsLoop rest tx2
    | (tx2, .ret (some e)) => (tx2, .ret (some e))
    | (tx2, .panics) => (tx2, .panics)

/-- ExecuteMultipleWriteOpsInTransaction: runs the op loop inside one
transaction. -/
def ExecuteMultipleWriteOpsInTransaction (beh : DBBehavior)
    (ops : List (Option TxOp)) (st : DBState) :
    GoReturn (Option GoError) × DBState × TxTrace :=
  ExecuteOpsInTransaction beh (runOpsLoop ops) st

/-- ExecuteSingleRowWriteInTransaction: one single-row write statement run
through the multi-op transaction runner. -/
def ExecuteSingleRowWriteInTransaction (beh : DBBehavior) (stmt : WriteStmt)
    (st : DBState) : GoReturn (Option GoError) × DBState × TxTrace :=
  ExecuteMultipleWriteOpsInTransaction beh [some (GetTxWrapperForSingleWriteQuery stmt)] st

/-- A write op that appends one query and reports success. -/
def okWrite (q : String) : TxOp := fun tx => (tx ++ [q], .ret none)

/-- A write op that fails with the given error without writing. -/
def failWrite (e : GoError) : TxOp := fun tx => (tx, .ret (some e))

/-- A write op that panics without writing. -/
def panicWrite : TxOp := fun tx => (tx, .panics)

/- Connection pool initialisation. The process-wide globals (the db pool and
the sync.Once guard) become an explicit PoolState threaded through calls; the
outcome the initialisation body (pool construction plus migration) would
produce if it ran is a parameter of each call, and initRuns counts how many
times that body actually ran. -/

/-- A pool handle (opaque stand-in for the sql.DB pointer). -/
structure DBHandle where
  handle : Nat
deriving DecidableEq, Repr

/-- Outcome of the initialisation body: the pool value the closure would
store in the db global, and the error it would report. -/
structure PoolAttempt where
  db : Option DBHandle
  err : Option GoError
deriving DecidableEq, Repr

/-- The process-wide state: the db global, the sync.Once completion flag,
and an instrumentation counter of initialisation-body executions. -/
structure PoolState where
  db : Option DBHandle
  onceDone : Bool
  initRuns : Nat
deriving DecidableEq, Repr

def initialPoolState : PoolState := { db := none, onceDone := false, initRuns := 0 }

/-- GetConfiguredConnectionPool from storage/rdbms.go: runs the
pool-plus-migration body under sync.Once; afterwards, when the db global is
nil and no error was produced by this call, substitutes the sentinel
never-initialized error. -/
def GetConfiguredConnectionPool (attempt : PoolAttempt) (st : PoolState) :
    (Option DBHandle × Option GoError) × PoolState :=
  let s :=
    if st.onceDone then (st, (none : Option GoError))
    else ({ db := attempt.db, onceDone := true, initRuns := st.initRuns + 1 }, attempt.err)
  let err := if s.1.db = none ∧ s.2 = none then some GoError.errDBConnectionNeverInitialized else s.2
  ((s.1.db, err), s.1)

/-- A sequence of calls to GetConfiguredConnectionPool, each with its own
hypothetical initialisation outcome, returning each call result in order
plus the final process state. -/
def runPoolCalls (attempts : List PoolAttempt) (st : PoolState) :
    List (Option DBHandle × Option GoError) × PoolState :=
  match attempts with
  | [] => ([], st)
  | a :: rest =>
    let r := GetConfiguredConnectionPool a st
    let rs := runPoolCalls rest r.2
    (r.1 :: rs.1, rs.2)

/- Cursor serialization. The data package source is not part of the tree
(only its callers in controller and storage are), so the codec is modelled
from the spec. -/

/-- The error reported for a token that does not decode to a Cursor. -/
inductive CursorFormatError where
  | malformedToken
deriving DecidableEq, Repr

/-- Decimal digit to character. -/
def encDigit : Nat → Char
  | 0 => '0'
  | 1 => '1'
  | 2 => '2'
  | 3 => '3'
  | 4 => '4'
  | 5 => '5'
  | 6 => '6'
  | 7 => '7'
  | 8 => '8'
  | _ => '9'

/-- Decimal representation of a natural number, most significant digit
first. -/
def digitsChars (n : Nat) : List Char :=
  if n = 0 then ['0'] else ((Nat.digits 10 n).map encDigit).reverse

/-- Whether a character is a decimal digit. -/
def isDigitChar (c : Char) : Bool := 48 ≤ c.toNat && c.toNat ≤ 57

/-- Character to decimal digit. -/
def decDigit (c : Char) : Nat := c.toNat - 48

/-- Parse a nonempty all-digit character list as a decimal number. -/
def decodeDigits (l : List Char) : Option Nat :=
  if l = [] then none
  else if l.all isDigitChar then
    some (l.foldl (fun a c => a * 10 + decDigit c) 0)
  else none

/-- Modelled from the spec: the data package Cursor serialization (the Go
method Cursor.String) is not under the source tree. Per spec section 3 and
4.1 a Cursor round-trips through a string token combining ID and Timestamp;
here the token is the ID, a separating space, and the decimal timestamp. -/
def Cursor.String (c : Cursor) : String := c.ID ++ " " ++ String.mk (digitsChars c.Timestamp)

/-- Split a character list at its first space. -/
def breakAtSpace : List Char → Option (List Char × List Char)
  | [] => none
  | c :: cs =>
    if c = ' ' then some ([], cs)
    else (breakAtSpace cs).map (fun p => (c :: p.1, p.2))

/-- Modelled from the spec: the data package ParseCursor is not under the
source tree. It decodes a token into a Cursor, failing with a
CursorFormatError when the token does not decode to an (ID, Timestamp)
pair; the timestamp is everything after the last space. -/
def ParseCursor (token : String) : Except CursorFormatError Cursor :=
  match breakAtSpace token.data.reverse with
  | none => .error .malformedToken
  | some (revDigits, revID) =>
    match decodeDigits revDigits.reverse with
    | none => .error .malformedToken
    | some ts => .ok { ID := String.mk revID.reverse, Timestamp := ts }

/- Theorems. -/
/-- Concrete fragment for an open pagination. -/
theorem fragment_open_page :
    GetPaginationQueryFragmentWithConfigurablePageSize
      { Next := none, Previous := none } false RegularPageSize =
    " ORDER BY createdAt desc, id desc LIMIT 25" := by rfl

/-- Concrete fragment for a forward (Next) page without an existing WHERE. -/
theorem fragment_next_example :
    GetPaginationQueryFragmentWithConfigurablePageSize
      { Next := some { ID := "abc", Timestamp := 7 }, Previous := none } false MediumPageSize =
    " WHERE id < " ++ squote ++ "abc" ++ squote ++ " AND createdAt <= ? ORDER BY createdAt desc, id desc LIMIT 50" := by rfl

/-- Concrete fragment for a backward (Previous) page appended to a WHERE. -/
theorem fragment_previous_example :
    GetPaginationQueryFragmentWithConfigurablePageSize
      { Next := none, Previous := some { ID := "abc", Timestamp := 7 } } true LargePageSize =
    " AND id > " ++ squote ++ "abc" ++ squote ++ " AND createdAt >= ? ORDER BY createdAt asc, id asc LIMIT 100" := by rfl

/-- C1: for every Pagination with both Next and Previous set, every append flag
and every page-size value, the generated fragment is exactly the one generated
when Previous is nil and Next is the same cursor (Next takes priority). -/
theorem pagination_next_wins (n p : Cursor) (append : Bool) (pageSize : Nat) :
    GetPaginationQueryFragmentWithConfigurablePageSize
      { Next := some n, Previous := some p } append pageSize =
    GetPaginationQueryFragmentWithConfigurablePageSize
      { Next := some n, Previous := none } append pageSize := rfl

/-- C3: for every Pagination and append flag, the fragment for the Regular,
Medium, Large and ExtraLarge tiers ends with the ORDER BY clause matching the
active cursor direction followed by LIMIT 25, 50, 100 and 500 respectively. -/
theorem fragment_tier_and_direction (page : Pagination) (append : Bool) :
    (∃ t, GetPaginationQueryFragmentWithConfigurablePageSize page append RegularPageSize
       = t ++ (expectedOrderDirection page ++ " LIMIT 25")) ∧
    (∃ t, GetPaginationQueryFragmentWithConfigurablePageSize page append MediumPageSize
       = t ++ (expectedOrderDirection page ++ " LIMIT 50")) ∧
    (∃ t, GetPaginationQueryFragmentWithConfigurablePageSize page append LargePageSize
       = t ++ (expectedOrderDirection page ++ " LIMIT 100")) ∧
    (∃ t, GetPaginationQueryFragmentWithConfigurablePageSize page append ExtraLargePageSize
       = t ++ (expectedOrderDirection page ++ " LIMIT 500")) := by
  obtain ⟨next, prev⟩ := page
  cases next <;> cases prev <;>
    exact ⟨⟨_, rfl⟩, ⟨_, rfl⟩, ⟨_, rfl⟩, ⟨_, rfl⟩⟩

/-- C2: evaluating the code at a Pagination with both cursors set. The args
builder returns BOTH timestamps (Next then Previous), while the fragment
builder under Next-precedence emits exactly one placeholder, so the returned
sequence does not match the single placeholder. -/
theorem pagination_args_both_cursors_mismatch :
    GetPaginationTimestampQueryArgs
      { Next := some { ID := "n1", Timestamp := 5 },
        Previous := some { ID := "p1", Timestamp := 9 } } = [5, 9] ∧
    numPlaceholders (GetPaginationQueryFragmentWithConfigurablePageSize
      { Next := some { ID := "n1", Timestamp := 5 },
        Previous := some { ID := "p1", Timestamp := 9 } } false RegularPageSize) = 1 :=
  ⟨rfl, by decide⟩


/-- C4: error paths of ExecuteOpsInTransaction. A Begin failure is returned
without invoking the ops; an ops error rolls back and is returned; on ops
success a commit is attempted, a commit failure is returned, and a clean
commit returns nil with the transaction committed. -/
theorem tx_exec_error_paths (beh : DBBehavior) (txOps : TxOp) (st : DBState) :
    (∀ e, beh.beginErr = some e →
      (ExecuteOpsInTransaction beh txOps st).1 = .normal (some e) ∧
      (ExecuteOpsInTransaction beh txOps st).2.2.opsInvoked = false) ∧
    (beh.beginErr = none → ∀ tx e, txOps [] = (tx, .ret (some e)) →
      (ExecuteOpsInTransaction beh txOps st).1 = .normal (some e) ∧
      (ExecuteOpsInTransaction beh txOps st).2.2.rolledBack = true) ∧
    (beh.beginErr = none → ∀ tx, txOps [] = (tx, .ret none) →
      (ExecuteOpsInTransaction beh txOps st).2.2.commitAttempted = true ∧
      (∀ ce, beh.commitErr = some ce →
        (ExecuteOpsInTransaction beh txOps st).1 = .normal (some ce)) ∧
      (beh.commitErr = none →
        (ExecuteOpsInTransaction beh txOps st).1 = .normal none ∧
        (ExecuteOpsInTransaction beh txOps st).2.2.committed = true)) := by
  refine ⟨?_, ?_, ?_⟩
  · intro e he
    simp [ExecuteOpsInTransaction, he]
  · intro hb tx e hops
    simp [ExecuteOpsInTransaction, hb, hops]
  · intro hb tx hops
    refine ⟨?_, ?_, ?_⟩
    · rcases hc : beh.commitErr with _ | ce <;>
        simp [ExecuteOpsInTransaction, hb, hops, hc]
    · intro ce hc
      simp [ExecuteOpsInTransaction, hb, hops, hc]
    · intro hc
      simp [ExecuteOpsInTransaction, hb, hops, hc]

/-- Witness for C4 at concrete inputs: a failing Begin, a failing op, and a
failing Commit. -/
theorem tx_exec_error_paths_witness :
    (ExecuteOpsInTransaction ⟨some (GoError.driver "b"), none⟩ (okWrite "w") ⟨[]⟩).1
      = .normal (some (GoError.driver "b")) ∧
    (ExecuteOpsInTransaction ⟨none, none⟩ (failWrite (GoError.driver "e")) ⟨[]⟩).2.2.rolledBack
      = true ∧
    (ExecuteOpsInTransaction ⟨none, some (GoError.driver "c")⟩ (okWrite "w") ⟨[]⟩).1
      = .normal (some (GoError.driver "c")) :=
  ⟨((tx_exec_error_paths _ _ _).1 _ rfl).1,
   ((tx_exec_error_paths _ _ _).2.1 rfl [] _ rfl).2,
   (((tx_exec_error_paths _ _ _).2.2 rfl ["w"] rfl).2.1 _ rfl)⟩

/-- C5: when the ops panic after a successful Begin, ExecuteOpsInTransaction
recovers the panic, rolls the transaction back, and returns normally rather
than re-raising the panic. -/
theorem tx_panic_recovery (beh : DBBehavior) (txOps : TxOp) (st : DBState)
    (tx : List String) (hb : beh.beginErr = none) (hops : txOps [] = (tx, .panics)) :
    (ExecuteOpsInTransaction beh txOps st).2.2.recoveredPanic = true ∧
    (ExecuteOpsInTransaction beh txOps st).2.2.rolledBack = true ∧
    ∃ r, (ExecuteOpsInTransaction beh txOps st).1 = .normal r := by
  simp [ExecuteOpsInTransaction, hb, hops]

/-- Witness for C5: a concrete panicking op. -/
theorem tx_panic_recovery_witness :
    (ExecuteOpsInTransaction ⟨none, none⟩ panicWrite ⟨[]⟩).2.2.recoveredPanic = true ∧
    (ExecuteOpsInTransaction ⟨none, none⟩ panicWrite ⟨[]⟩).2.2.rolledBack = true ∧
    ∃ r, (ExecuteOpsInTransaction ⟨none, none⟩ panicWrite ⟨[]⟩).1 = .normal r :=
  tx_panic_recovery ⟨none, none⟩ panicWrite ⟨[]⟩ [] rfl rfl

/-- C10: when the ops panic after a successful Begin the returned error is
nil, the same return value as a run whose ops succeed and whose commit
succeeds, so the caller cannot tell the two apart from the return value. -/
theorem tx_panic_indistinguishable (beh : DBBehavior) (txOps : TxOp) (st : DBState)
    (tx : List String) (hb : beh.beginErr = none) (hops : txOps [] = (tx, .panics)) :
    (ExecuteOpsInTransaction beh txOps st).1 = .normal none ∧
    (∀ (ops2 : TxOp) (tx2 : List String), ops2 [] = (tx2, .ret none) →
      beh.commitErr = none →
      (ExecuteOpsInTransaction beh ops2 st).1 = (ExecuteOpsInTransaction beh txOps st).1) := by
  constructor
  · simp [ExecuteOpsInTransaction, hb, hops]
  · intro ops2 tx2 h2 hc
    simp [ExecuteOpsInTransaction, hb, hops, h2, hc]

/-- Witness for C10: a panicking op next to a committing op. -/
theorem tx_panic_indistinguishable_witness :
    (ExecuteOpsInTransaction ⟨none, none⟩ panicWrite ⟨[]⟩).1 = .normal none ∧
    (ExecuteOpsInTransaction ⟨none, none⟩ (okWrite "w") ⟨[]⟩).1
      = (ExecuteOpsInTransaction ⟨none, none⟩ panicWrite ⟨[]⟩).1 :=
  ⟨(tx_panic_indistinguishable ⟨none, none⟩ panicWrite ⟨[]⟩ [] rfl rfl).1,
   (tx_panic_indistinguishable ⟨none, none⟩ panicWrite ⟨[]⟩ [] rfl rfl).2
     (okWrite "w") ["w"] rfl rfl⟩

/-- C6: the single-row write guard. With no driver error, an affected-row
count of 0 or more than 1 makes the wrapped statement (and the whole
ExecuteSingleRowWriteInTransaction run) return ErrNoRowsUpdated, while an
affected-row count of exactly 1 yields no error for the statement. -/
theorem single_write_row_guard (stmt : WriteStmt) (tx : List String)
    (beh : DBBehavior) (st : DBState)
    (he : stmt.execErr = none) (hr : stmt.rowsAffectedErr = none) :
    ((stmt.rowsAffected = 0 ∨ 1 < stmt.rowsAffected) →
      (GetTxWrapperForSingleWriteQuery stmt tx).2
        = .ret (some GoError.errNoRowsUpdated) ∧
      (beh.beginErr = none →
        (ExecuteSingleRowWriteInTransaction beh stmt st).1
          = .normal (some GoError.errNoRowsUpdated))) ∧
    (stmt.rowsAffected = 1 →
      (GetTxWrapperForSingleWriteQuery stmt tx).2 = .ret none) := by
  constructor
  · intro hcount
    have hne : stmt.rowsAffected ≠ 1 := by
      rcases hcount with h | h <;> omega
    constructor
    · simp [GetTxWrapperForSingleWriteQuery, ExecuteQueryInTransaction, he, hr, hne]
    · intro hb
      simp [ExecuteSingleRowWriteInTransaction, ExecuteMultipleWriteOpsInTransaction,
        ExecuteOpsInTransaction, runOpsLoop, GetTxWrapperForSingleWriteQuery,
        ExecuteQueryInTransaction, he, hr, hne, hb]
  · intro h1
    simp [GetTxWrapperForSingleWriteQuery, ExecuteQueryInTransaction, he, hr, h1]

/-- Witness for C6: an update affecting zero rows errs, an update affecting
one row does not. -/
theorem single_write_row_guard_witness :
    (GetTxWrapperForSingleWriteQuery ⟨"UPDATE t", none, 0, none⟩ []).2
      = .ret (some GoError.errNoRowsUpdated) ∧
    (ExecuteSingleRowWriteInTransaction ⟨none, none⟩ ⟨"UPDATE t", none, 0, none⟩ ⟨[]⟩).1
      = .normal (some GoError.errNoRowsUpdated) ∧
    (GetTxWrapperForSingleWriteQuery ⟨"UPDATE t", none, 1, none⟩ []).2 = .ret none :=
  ⟨((single_write_row_guard ⟨"UPDATE t", none, 0, none⟩ [] ⟨none, none⟩ ⟨[]⟩ rfl rfl).1
      (Or.inl rfl)).1,
   ((single_write_row_guard ⟨"UPDATE t", none, 0, none⟩ [] ⟨none, none⟩ ⟨[]⟩ rfl rfl).1
      (Or.inl rfl)).2 rfl,
   (single_write_row_guard ⟨"UPDATE t", none, 1, none⟩ [] ⟨none, none⟩ ⟨[]⟩ rfl rfl).2 rfl⟩

/-- C7: the multi-op runner skips nil entries without error, the first
failing op stops the loop regardless of what follows, and a failed loop
leaves the database untouched with the transaction rolled back. -/
theorem multi_write_no_partial_commit :
    (∀ (rest : List (Option TxOp)) (tx : List String),
      runOpsLoop (none :: rest) tx = runOpsLoop rest tx) ∧
    (∀ (op : TxOp) (rest : List (Option TxOp)) (tx tx2 : List String) (e : GoError),
      op tx = (tx2, .ret (some e)) →
      runOpsLoop (some op :: rest) tx = (tx2, .ret (some e))) ∧
    (∀ (beh : DBBehavior) (ops : List (Option TxOp)) (st : DBState)
        (tx : List String) (e : GoError),
      beh.beginErr = none → runOpsLoop ops [] = (tx, .ret (some e)) →
      (ExecuteMultipleWriteOpsInTransaction beh ops st).1 = .normal (some e) ∧
      (ExecuteMultipleWriteOpsInTransaction beh ops st).2.1 = st ∧
      (ExecuteMultipleWriteOpsInTransaction beh ops st).2.2.rolledBack = true) := by
  refine ⟨fun rest tx => rfl, ?_, ?_⟩
  · intro op rest tx tx2 e h
    simp [runOpsLoop, h]
  · intro beh ops st tx e hb hloop
    simp [ExecuteMultipleWriteOpsInTransaction, ExecuteOpsInTransaction, hb, hloop]

/-- Witness for C7: five ops of which the third fails; nothing reaches the
database and the transaction is rolled back. -/
theorem multi_write_no_partial_commit_witness :
    runOpsLoop [none] ["a"] = runOpsLoop [] ["a"] ∧
    runOpsLoop [some (failWrite (GoError.driver "boom"))] []
      = ([], .ret (some (GoError.driver "boom"))) ∧
    (ExecuteMultipleWriteOpsInTransaction ⟨none, none⟩
        [some (okWrite "w1"), some (okWrite "w2"),
         some (failWrite (GoError.driver "boom")),
         some (okWrite "w4"), some (okWrite "w5")] ⟨["r"]⟩).2.1 = ⟨["r"]⟩ ∧
    (ExecuteMultipleWriteOpsInTransaction ⟨none, none⟩
        [some (okWrite "w1"), some (okWrite "w2"),
         some (failWrite (GoError.driver "boom")),
         some (okWrite "w4"), some (okWrite "w5")] ⟨["r"]⟩).2.2.rolledBack = true :=
  ⟨multi_write_no_partial_commit.1 [] ["a"],
   multi_write_no_partial_commit.2.1 (failWrite (GoError.driver "boom")) [] [] [] _ rfl,
   (multi_write_no_partial_commit.2.2 ⟨none, none⟩
      [some (okWrite "w1"), some (okWrite "w2"),
       some (failWrite (GoError.driver "boom")),
       some (okWrite "w4"), some (okWrite "w5")] ⟨["r"]⟩ ["w1", "w2"]
      (GoError.driver "boom") rfl rfl).2.1,
   (multi_write_no_partial_commit.2.2 ⟨none, none⟩
      [some (okWrite "w1"), some (okWrite "w2"),
       some (failWrite (GoError.driver "boom")),
       some (okWrite "w4"), some (okWrite "w5")] ⟨["r"]⟩ ["w1", "w2"]
      (GoError.driver "boom") rfl rfl).2.2⟩

/-- After the once-guard has completed, a call neither changes the process
state nor runs the initialisation body; it returns the stored pool with the
sentinel error exactly when the pool is unset. -/
theorem pool_call_after_done (a : PoolAttempt) (st : PoolState)
    (h : st.onceDone = true) :
    GetConfiguredConnectionPool a st =
      ((st.db, if st.db = none then some GoError.errDBConnectionNeverInitialized
               else none), st) := by
  simp [GetConfiguredConnectionPool, h]

/-- After the once-guard has completed, any further sequence of calls leaves
the state unchanged and, when the pool is unset, every call returns the
sentinel never-initialized error. -/
theorem runPoolCalls_after_done (attempts : List PoolAttempt) (st : PoolState)
    (h : st.onceDone = true) :
    (runPoolCalls attempts st).2 = st ∧
    (st.db = none → ∀ r ∈ (runPoolCalls attempts st).1,
      r = (none, some GoError.errDBConnectionNeverInitialized)) := by
  induction attempts with
  | nil => simp [runPoolCalls]
  | cons a rest ih =>
    rw [runPoolCalls]
    rw [pool_call_after_done a st h]
    refine ⟨ih.1, ?_⟩
    intro hdb r hr
    simp only [List.mem_cons] at hr
    rcases hr with hr | hr
    · simp [hr, hdb]
    · exact ih.2 hdb r hr

/-- C8: across any sequence of calls from the initial process state the
initialisation body runs at most once, and when the first attempt leaves the
pool unset every subsequent call returns the sentinel never-initialized
error. -/
theorem pool_init_once_and_sentinel (attempts : List PoolAttempt) :
    (runPoolCalls attempts initialPoolState).2.initRuns ≤ 1 ∧
    (∀ (first : PoolAttempt) (rest : List PoolAttempt), first.db = none →
      ∀ r ∈ (runPoolCalls rest (GetConfiguredConnectionPool first initialPoolState).2).1,
        r = (none, some GoError.errDBConnectionNeverInitialized)) := by
  constructor
  · match attempts with
    | [] => simp [runPoolCalls, initialPoolState]
    | a :: rest =>
      rw [runPoolCalls]
      have hstep : (GetConfiguredConnectionPool a initialPoolState).2 =
          { db := a.db, onceDone := true, initRuns := 1 } := by
        simp [GetConfiguredConnectionPool, initialPoolState]
      rw [hstep]
      have := (runPoolCalls_after_done rest
        { db := a.db, onceDone := true, initRuns := 1 } rfl).1
      simp [this]
  · intro first rest hdb r hr
    have hstep : (GetConfiguredConnectionPool first initialPoolState).2 =
        { db := first.db, onceDone := true, initRuns := 1 } := by
      simp [GetConfiguredConnectionPool, initialPoolState]
    rw [hstep] at hr
    exact (runPoolCalls_after_done rest _ rfl).2 (by simp [hdb]) r hr

/-- Witness for C8: a failed first attempt followed by a call whose attempt
outcome would have succeeded still yields the sentinel error. -/
theorem pool_init_once_and_sentinel_witness :
    (runPoolCalls [⟨none, some (GoError.driver "x")⟩, ⟨some ⟨1⟩, none⟩]
      initialPoolState).2.initRuns ≤ 1 ∧
    ((none : Option DBHandle), some GoError.errDBConnectionNeverInitialized)
      = (none, some GoError.errDBConnectionNeverInitialized) :=
  ⟨(pool_init_once_and_sentinel _).1,
   (pool_init_once_and_sentinel []).2 ⟨none, some (GoError.driver "x")⟩
     [⟨some ⟨1⟩, none⟩] rfl (none, some GoError.errDBConnectionNeverInitialized)
     (by decide)⟩

theorem encDigit_not_space (d : Nat) (h : d < 10) : encDigit d ≠ ' ' := by
  interval_cases d <;> decide

theorem isDigitChar_encDigit (d : Nat) (h : d < 10) : isDigitChar (encDigit d) = true := by
  interval_cases d <;> decide

theorem decDigit_encDigit (d : Nat) (h : d < 10) : decDigit (encDigit d) = d := by
  interval_cases d <;> decide

theorem decode_foldl (L : List Nat) (h : ∀ d ∈ L, d < 10) (acc : Nat) :
    List.foldl (fun a c => a * 10 + decDigit c) acc ((L.map encDigit).reverse)
      = acc * 10 ^ L.length + Nat.ofDigits 10 L := by
  induction L generalizing acc with
  | nil => simp [Nat.ofDigits_nil]
  | cons d T ih =>
    have hd : d < 10 := h d (List.mem_cons_self _ _)
    have hT : ∀ x ∈ T, x < 10 := fun x hx => h x (List.mem_cons_of_mem _ hx)
    simp only [List.map_cons, List.reverse_cons, List.foldl_append, List.foldl_cons,
      List.foldl_nil, List.length_cons]
    rw [ih hT acc, decDigit_encDigit d hd, Nat.ofDigits_cons]
    ring

theorem decodeDigits_digitsChars (n : Nat) : decodeDigits (digitsChars n) = some n := by
  by_cases h0 : n = 0
  · subst h0
    decide
  · rw [digitsChars, if_neg h0]
    have hne : Nat.digits 10 n ≠ [] := Nat.digits_ne_nil_iff_ne_zero.mpr h0
    have hlt : ∀ d ∈ Nat.digits 10 n, d < 10 :=
      fun d hd => Nat.digits_lt_base (by norm_num) hd
    have hne2 : ((Nat.digits 10 n).map encDigit).reverse ≠ [] := by
      simp [hne]
    rw [decodeDigits, if_neg hne2]
    have hall : (((Nat.digits 10 n).map encDigit).reverse).all isDigitChar = true := by
      rw [List.all_eq_true]
      intro c hc
      rw [List.mem_reverse, List.mem_map] at hc
      obtain ⟨d, hd, rfl⟩ := hc
      exact isDigitChar_encDigit d (hlt d hd)
    rw [if_pos hall]
    rw [decode_foldl _ hlt 0]
    simp [Nat.ofDigits_digits]

theorem digitsChars_not_space (n : Nat) : ∀ c ∈ digitsChars n, c ≠ ' ' := by
  intro c hc
  rw [digitsChars] at hc
  by_cases h0 : n = 0
  · rw [if_pos h0] at hc
    simp only [List.mem_singleton] at hc
    subst hc
    decide
  · rw [if_neg h0] at hc
    rw [List.mem_reverse, List.mem_map] at hc
    obtain ⟨d, hd, rfl⟩ := hc
    exact encDigit_not_space d (Nat.digits_lt_base (by norm_num) hd)

theorem breakAtSpace_append (l rest : List Char) (h : ∀ c ∈ l, c ≠ ' ') :
    breakAtSpace (l ++ ' ' :: rest) = some (l, rest) := by
  induction l with
  | nil => simp [breakAtSpace]
  | cons c cs ih =>
    have hc : c ≠ ' ' := h c (List.mem_cons_self _ _)
    have hcs : breakAtSpace (cs ++ ' ' :: rest) = some (cs, rest) :=
      ih (fun x hx => h x (List.mem_cons_of_mem _ hx))
    simp [breakAtSpace, hc, hcs]

/-- C9: round trip of the cursor serialization (every Cursor parses back from
its own token), and every parse failure is reported as the cursor format
error, shown failing on two concrete undecodable tokens. -/
theorem cursor_roundtrip_and_format_error :
    (∀ c : Cursor, ParseCursor (Cursor.String c) = Except.ok c) ∧
    (∀ (t : String) (e : CursorFormatError),
      ParseCursor t = Except.error e → e = CursorFormatError.malformedToken) ∧
    ParseCursor "abc" = Except.error CursorFormatError.malformedToken ∧
    ParseCursor "abc 12x" = Except.error CursorFormatError.malformedToken := by
  refine ⟨?_, ?_, rfl, rfl⟩
  · intro c
    rcases c with ⟨⟨l⟩, ts⟩
    have h1 : (Cursor.String ⟨⟨l⟩, ts⟩).data.reverse
        = (digitsChars ts).reverse ++ ' ' :: l.reverse := by
      show (String.mk l ++ " " ++ String.mk (digitsChars ts)).data.reverse = _
      have hsp : (" " : String).data = [' '] := rfl
      simp [String.data_append, hsp, List.reverse_append]
    unfold ParseCursor
    rw [h1, breakAtSpace_append _ _
      (fun ch hch => digitsChars_not_space ts ch (List.mem_reverse.mp hch))]
    simp [List.reverse_reverse, decodeDigits_digitsChars]
  · intro t e _
    cases e
    rfl

/-- Witness for C9 at a concrete cursor and a concrete malformed token. -/
theorem cursor_roundtrip_and_format_error_witness :
    ParseCursor (Cursor.String { ID := "row9", Timestamp := 123 })
      = Except.ok { ID := "row9", Timestamp := 123 } ∧
    CursorFormatError.malformedToken = CursorFormatError.malformedToken :=
  ⟨cursor_roundtrip_and_format_error.1 { ID := "row9", Timestamp := 123 },
   cursor_roundtrip_and_format_error.2.1 "abc" CursorFormatError.malformedToken
     rfl⟩
